import Mathlib

/-!
# Verification of the `gojira` Jira client (`src/jira.go`)

Shallow embedding of the data model and the operations of `jira.go`.
Go `int` is modelled as `Int`, Go strings and `[]byte` values as `String`,
Go pointers (`*T`) as `Option T`, Go slices that may be `nil` as
`Option (List T)` where the distinction matters, and Go `float32`/`float64`
values as exact rationals (`ℚ`).  Fallible operations return `Option`/`Except`;
a `nil`-pointer dereference (Go runtime panic) is modelled as `none`.
-/

namespace Gojira

/-- Basic-auth credentials (`type Auth`, jira.go:31-34). -/
structure Auth where
  Login : String
  Password : String
deriving Repr, DecidableEq

/-- The client configuration (`type Jira`, jira.go:23-29).  The embedded
`http.Client` is transport state with no bearing on URL construction or
response handling and is not part of the embedding. -/
structure Jira where
  BaseUrl : String
  ApiPath : String
  ActivityPath : String
  Auth : Option Auth
deriving Repr, DecidableEq

/-- `type Version` (jira.go:36-43). -/
structure Version where
  Id : String
  Self : String
  Name : String
  Description : String
  Project : String
  ProjectId : Int
deriving Repr, DecidableEq

/-- `type Comment` (jira.go:45-47). -/
structure Comment where
  Body : String
deriving Repr, DecidableEq

/-- `type Pagination` (jira.go:49-56). -/
structure Pagination where
  Total : Int
  StartAt : Int
  MaxResults : Int
  Page : Int
  PageCount : Int
  Pages : List Int
deriving Repr, DecidableEq

/-- Exact reading of `int(math.Ceil(float64(a) / float64(b)))` (jira.go:59-60):
the ceiling of the real quotient `a / b`, written as `-((-a) / b)` with
Euclidean integer division so that it is kernel-computable;
`ceilIntDiv_eq_ceil` below proves it equal to `⌈a / b⌉` over `ℚ` whenever
`b > 0`.  For `b = 0` the Go source divides by zero in floating point and the
converted `int` is unspecified (this definition yields `0` there); no theorem
below relies on the value at `b = 0`. -/
def ceilIntDiv (a b : Int) : Int :=
  -((-a) / b)

/-- `func (p *Pagination) Compute()` (jira.go:58-66).  Go's
`make([]int, n)` with the loop `p.Pages[i] = i` produces `[0, …, n-1]`;
for negative `n` Go would panic, which the `Int.toNat` clamp never
exercises in the theorems below (their hypotheses force `n ≥ 0`). -/
def Pagination.compute (p : Pagination) : Pagination :=
  let pageCount := ceilIntDiv p.Total p.MaxResults
  { p with
    PageCount := pageCount
    Page := ceilIntDiv p.StartAt p.MaxResults
    Pages := (List.range pageCount.toNat).map Int.ofNat }

example : (Pagination.compute ⟨95, 20, 25, 0, 0, []⟩).PageCount = 4 := by decide
example : (Pagination.compute ⟨95, 20, 25, 0, 0, []⟩).Page = 1 := by decide
example : (Pagination.compute ⟨95, 20, 25, 0, 0, []⟩).Pages = [0, 1, 2, 3] := by decide

/-- For a positive divisor, `ceilIntDiv` is exactly the ceiling of the
rational quotient, i.e. the exact value of `math.Ceil(float64(a)/float64(b))`
whenever the floating-point computation is exact. -/
lemma ceilIntDiv_eq_ceil (a b : Int) (hb : 0 < b) :
    ceilIntDiv a b = ⌈(a : ℚ) / (b : ℚ)⌉ := by
  obtain ⟨n, rfl⟩ : ∃ n : ℕ, b = (n : ℤ) := ⟨b.toNat, (Int.toNat_of_nonneg hb.le).symm⟩
  have h1 : ((a : ℚ) / ((n : ℤ) : ℚ)) = -(((-a : ℤ) : ℚ) / ((n : ℕ) : ℚ)) := by
    push_cast
    ring
  rw [h1, Int.ceil_neg, Rat.floor_intCast_div_natCast, ceilIntDiv]

/-- Ceiling bounds for `ceilIntDiv`: `ceilIntDiv a b` is the least integer `c`
with `a ≤ c * b` (for `b > 0`). -/
lemma ceilIntDiv_bounds (a b : Int) (hb : 0 < b) :
    a ≤ ceilIntDiv a b * b ∧ (ceilIntDiv a b - 1) * b < a := by
  have hbq : (0 : ℚ) < (b : ℚ) := by exact_mod_cast hb
  rw [ceilIntDiv_eq_ceil a b hb]
  constructor
  · have h := Int.le_ceil ((a : ℚ) / (b : ℚ))
    have h2 := (div_le_iff₀ hbq).mp h
    exact_mod_cast h2
  · have h := Int.ceil_lt_add_one ((a : ℚ) / (b : ℚ))
    have h2 : ((⌈(a : ℚ) / (b : ℚ)⌉ : ℚ) - 1) < (a : ℚ) / (b : ℚ) := by linarith
    have h3 := (lt_div_iff₀ hbq).mp h2
    exact_mod_cast h3

/-- `ceilIntDiv` of a nonnegative numerator by a positive divisor is
nonnegative. -/
lemma ceilIntDiv_nonneg (a b : Int) (ha : 0 ≤ a) (hb : 0 < b) :
    0 ≤ ceilIntDiv a b := by
  rw [ceilIntDiv_eq_ceil a b hb]
  exact Int.ceil_nonneg (div_nonneg (by exact_mod_cast ha) (by positivity))

/-- Modelled from the spec: the `User` type is referenced by
`IssueFields.Reporter` and `IssueFields.Assignee` (jira.go:94-95, `*User`)
but its declaration is not part of `src/`; the spec only says reporter and
assignee are user-valued fields, so the model carries an opaque name. -/
structure User where
  Name : String
deriving Repr, DecidableEq

/-- `type IssueType` (jira.go:105-112). -/
structure IssueType where
  Self : String
  Id : String
  Description : String
  IconUrl : String
  Name : String
  Subtask : Bool
deriving Repr, DecidableEq

/-- `type JiraProject` (jira.go:114-120); the `AvatarUrls` map is modelled
as an association list. -/
structure JiraProject where
  Self : String
  Id : String
  Key : String
  Name : String
  AvatarUrls : List (String × String)
deriving Repr, DecidableEq

/-- `type IssueFields` (jira.go:90-103).  Go pointer fields are `Option`s,
the `Versions` slice keeps the `nil` / non-`nil` distinction as
`Option (List Version)`, and the two `float32` custom fields are modelled as
exact rationals. -/
structure IssueFields where
  IssueType : Option IssueType
  Summary : String
  Description : String
  Reporter : Option User
  Assignee : Option User
  Project : Option JiraProject
  Created : String
  Versions : Option (List Version)
  CrashReportId : ℚ
  BacktraceHash : String
  CrashCount : ℚ
deriving Repr, DecidableEq

/-- `type IssueRef` (jira.go:68-72). -/
structure IssueRef where
  Id : String
  Key : String
  Self : String
deriving Repr, DecidableEq

/-- `type Issue` (jira.go:73-79). -/
structure Issue where
  Id : String
  Key : String
  Self : String
  Expand : String
  Fields : Option IssueFields
deriving Repr, DecidableEq

/-- `type SearchResult` (jira.go:81-88). -/
structure SearchResult where
  Expand : String
  StartAt : Int
  MaxResults : Int
  Total : Int
  Issues : List Issue
  Pagination : Option Pagination
deriving Repr, DecidableEq

/-! ## URL construction (Go `net/url.QueryEscape` and per-operation URLs) -/

/-- Uppercase hexadecimal digit, as produced by Go's `net/url` escaping. -/
def hexUpperDigit (n : Nat) : Char :=
  if n < 10 then Char.ofNat (48 + n) else Char.ofNat (55 + n)

/-- Characters `url.QueryEscape` leaves unescaped: ASCII alphanumerics and
`-`, `_`, `.`, `~`. -/
def isQueryUnescaped (c : Char) : Bool :=
  (decide ('A' ≤ c) && decide (c ≤ 'Z')) ||
  (decide ('a' ≤ c) && decide (c ≤ 'z')) ||
  (decide ('0' ≤ c) && decide (c ≤ '9')) ||
  c == '-' || c == '_' || c == '.' || c == '~'

/-- Escaping of a single character by `url.QueryEscape`: unescaped characters
pass through, a space becomes `+`, anything else becomes `%XX`.  Go escapes
each byte of the UTF-8 encoding; this model escapes per character, which
coincides with Go on ASCII input (every value the theorems below evaluate it
on is ASCII). -/
def queryEscapeChar (c : Char) : String :=
  if isQueryUnescaped c then String.singleton c
  else if c == ' ' then "+"
  else String.singleton '%' ++ String.singleton (hexUpperDigit (c.toNat / 16)) ++
    String.singleton (hexUpperDigit (c.toNat % 16))

/-- Go's `net/url.QueryEscape`. -/
def queryEscape (s : String) : String :=
  String.join (s.toList.map queryEscapeChar)

example : queryEscape "a b" = "a+b" := by decide
example : queryEscape "project = X" = "project+%3D+X" := by decide

/-- URL built by `Jira.Issue` (jira.go:279): the id is concatenated
verbatim. -/
def Jira.issueURL (j : Jira) (id : String) : String :=
  j.BaseUrl ++ j.ApiPath ++ "/issue/" ++ id

/-- URL built by `Jira.Search` (jira.go:345). -/
def Jira.searchURL (j : Jira) (jql : String) (maxResults : Int) : String :=
  j.BaseUrl ++ j.ApiPath ++ "/search?jql=" ++ queryEscape jql ++
    "&maxResults=" ++ toString maxResults

/-- URL built by `Jira.IssuesAssignedTo` (jira.go:255). -/
def Jira.issuesAssignedToURL (j : Jira) (user : String) (maxResults startAt : Int) : String :=
  j.BaseUrl ++ j.ApiPath ++ "/search?jql=assignee=\"" ++ queryEscape user ++
    "\"&startAt=" ++ toString startAt ++ "&maxResults=" ++ toString maxResults

/-- URL built by `Jira.UserActivity` (jira.go:234). -/
def Jira.userActivityURL (j : Jira) (user : String) : String :=
  j.BaseUrl ++ j.ActivityPath ++ "?streams=" ++ queryEscape ("user IS " ++ user)

/-- URL built by `Jira.AddComment` (jira.go:368): the issue key is
concatenated verbatim. -/
def Jira.addCommentURL (j : Jira) (issue_key : String) : String :=
  j.BaseUrl ++ j.ApiPath ++ "/issue/" ++ issue_key ++ "/comment"

/-- URL built by `Jira.GetAllVersions` (jira.go:382): the project key is
concatenated verbatim. -/
def Jira.getAllVersionsURL (j : Jira) (productKey : String) : String :=
  j.BaseUrl ++ j.ApiPath ++ "/project/" ++ productKey ++ "/versions"

/-- URL built by `Jira.SaveIssue` (jira.go:304): the issue key is
concatenated verbatim. -/
def Jira.saveIssueURL (j : Jira) (issue : Issue) : String :=
  j.BaseUrl ++ j.ApiPath ++ "/issue/" ++ issue.Key

/-- URL built by `Jira.AddVersionToIssue` (jira.go:407): the issue key is
concatenated verbatim. -/
def Jira.addVersionToIssueURL (j : Jira) (issue : IssueRef) : String :=
  j.BaseUrl ++ j.ApiPath ++ "/issue/" ++ issue.Key

/-! ## Response handling of the void operations, and the executor's
failure result -/

/-- On transport failure `buildAndExecRequest` prints the error and returns
`nil` (jira.go:204-208), a `[]byte` of length `0`, modelled as the empty
byte string. -/
def execRequestFailureContents : String := ""

/-- Response handling of `Jira.SaveIssue` (jira.go:307-310): a non-empty
body becomes the returned error (`some`), an empty body means success
(`none`). -/
def saveIssueRespond (contents : String) : Option String :=
  if contents.length > 0 then some ("error: " ++ contents) else none

/-- Response handling of `Jira.AddVersionToIssue` (jira.go:410-413): an
empty body means success (`none`), otherwise the body becomes the returned
error (`some`). -/
def addVersionToIssueRespond (contents : String) : Option String :=
  if contents.length == 0 then none else some ("error: " ++ contents)

/-! ## SaveIssue mutation and the JSON shape of the outgoing payload -/

/-- The in-place mutation at the start of `Jira.SaveIssue`
(jira.go:293-295): `issue.Fields` is dereferenced unconditionally, so a
`nil` `Fields` pointer is a runtime panic, modelled as `none`. -/
def Jira.saveIssuePrepare (issue : Issue) : Option Issue :=
  match issue.Fields with
  | none => none
  | some f =>
      some { issue with
        Fields := some { f with Reporter := none, Assignee := none, Created := "" } }

/-- `[k]` when `b` holds, else `[]`: one struct field's contribution to the
key set of a Go `encoding/json` object with `omitempty` tags. -/
def optKey (b : Bool) (k : String) : List String := if b then [k] else []

/-- The object keys `json.Marshal` emits for an `IssueFields` value, per the
`omitempty` struct tags of jira.go:90-103: a pointer field is emitted iff
non-`nil`, a string iff non-empty, a slice iff of positive length, a number
iff non-zero. -/
def IssueFields.jsonKeys (f : IssueFields) : List String :=
  optKey f.IssueType.isSome "issuetype" ++
  optKey (decide (f.Summary ≠ "")) "summary" ++
  optKey (decide (f.Description ≠ "")) "description" ++
  optKey f.Reporter.isSome "reporter" ++
  optKey f.Assignee.isSome "assignee" ++
  optKey f.Project.isSome "project" ++
  optKey (decide (f.Created ≠ "")) "created" ++
  optKey (decide (f.Versions.getD [] ≠ [])) "versions" ++
  optKey (decide (f.CrashReportId ≠ 0)) "customfield_10021" ++
  optKey (decide (f.BacktraceHash ≠ "")) "customfield_10022" ++
  optKey (decide (f.CrashCount ≠ 0)) "customfield_10023"

/-- The object keys `json.Marshal` emits for an `Issue` (jira.go:73-79),
together with the keys of the nested `fields` object: every key that can
occur anywhere in the outgoing `SaveIssue` payload. -/
def Issue.jsonKeysDeep (i : Issue) : List String :=
  optKey (decide (i.Id ≠ "")) "id" ++
  optKey (decide (i.Key ≠ "")) "key" ++
  optKey (decide (i.Self ≠ "")) "self" ++
  optKey (decide (i.Expand ≠ "")) "expand" ++
  optKey i.Fields.isSome "fields" ++
  (match i.Fields with
   | some f => f.jsonKeys
   | none => [])

/-! ## Version attachment and issue construction -/

/-- `func (f *IssueFields) AddVersion` (jira.go:436-446): a `nil` list is
initialised to the empty slice, a version whose `Name` already occurs leaves
the list as it was, otherwise the version is appended. -/
def IssueFields.addVersion (f : IssueFields) (version : Version) : IssueFields :=
  let vs := f.Versions.getD []
  if vs.any (fun v => v.Name == version.Name) then { f with Versions := some vs }
  else { f with Versions := some (vs ++ [version]) }

/-- `func NewIssue` (jira.go:313-322). -/
def NewIssue (project : String) (issue_type : String) : Issue :=
  { Id := "", Key := "", Self := "", Expand := "",
    Fields := some
      { IssueType := some { Self := "", Id := "", Description := "", IconUrl := "",
                            Name := issue_type, Subtask := false }
        Summary := "", Description := "", Reporter := none, Assignee := none
        Project := some { Self := "", Id := "", Key := project, Name := "", AvatarUrls := [] }
        Created := "", Versions := some [], CrashReportId := 0, BacktraceHash := ""
        CrashCount := 0 } }

/-! ## Search-result assembly -/

/-- Result assembly of `Jira.IssuesAssignedTo` (jira.go:264-271): a
`Pagination` is built from the decoded result's `Total`, `StartAt` and
`MaxResults` (the other fields start as Go zero values), `Compute`d, and
attached to the result. -/
def Jira.issuesAssignedToAssemble (decoded : SearchResult) : SearchResult :=
  { decoded with
    Pagination := some (Pagination.compute
      { Total := decoded.Total, StartAt := decoded.StartAt,
        MaxResults := decoded.MaxResults, Page := 0, PageCount := 0, Pages := [] }) }

/-- Result assembly of `Jira.Search` (jira.go:349-356): the decoded result is
returned as is; nothing is attached. -/
def Jira.searchAssemble (decoded : SearchResult) : SearchResult :=
  decoded

/-- Modelled from the spec: pagination "must tolerate maxResults = 0 only by
signaling a division error to the caller" (spec §4.1); the source `Compute`
has no error channel, so the error-signaling calculator the claim describes
exists only as this checked variant. -/
def Pagination.computeChecked (p : Pagination) : Except String Pagination :=
  if p.MaxResults = 0 then Except.error "division error: maxResults = 0"
  else Except.ok p.compute

/-- Version names of an `IssueFields`, with a `nil` list reading as empty. -/
def IssueFields.versionNames (f : IssueFields) : List String :=
  (f.Versions.getD []).map Version.Name

/-! ## Helper lemmas -/

/-- Membership in one `omitempty` key contribution. -/
lemma mem_optKey {x k : String} {b : Bool} : x ∈ optKey b k ↔ b = true ∧ x = k := by
  cases b <;> simp [optKey]

/-! ## Claims -/

/-- C1: for every `Total ≥ 0`, `StartAt ≥ 0` and `MaxResults > 0`,
`Pagination.Compute` keeps the three inputs, sets `PageCount` to
`⌈Total / MaxResults⌉` and `Page` to `⌈StartAt / MaxResults⌉` (each
characterised by its ceiling bounds), and sets `Pages` to the sequential
list `[0, 1, …, PageCount-1]`; in particular `total = 95`, `startAt = 20`,
`maxResults = 25` yields `PageCount = 4`, `Page = 1`, `Pages = [0,1,2,3]`. -/
theorem pagination_compute_correct (p : Pagination)
    (htotal : 0 ≤ p.Total) (_hstart : 0 ≤ p.StartAt) (hmax : 0 < p.MaxResults) :
    (p.compute.Total = p.Total ∧ p.compute.StartAt = p.StartAt ∧
      p.compute.MaxResults = p.MaxResults) ∧
    (p.Total ≤ p.compute.PageCount * p.MaxResults ∧
      (p.compute.PageCount - 1) * p.MaxResults < p.Total) ∧
    (p.StartAt ≤ p.compute.Page * p.MaxResults ∧
      (p.compute.Page - 1) * p.MaxResults < p.StartAt) ∧
    (0 ≤ p.compute.PageCount ∧
      p.compute.Pages.length = p.compute.PageCount.toNat ∧
      ∀ (i : Nat), (hi : i < p.compute.Pages.length) → p.compute.Pages[i] = (i : Int)) ∧
    Pagination.compute ⟨95, 20, 25, 0, 0, []⟩ = ⟨95, 20, 25, 1, 4, [0, 1, 2, 3]⟩ := by
  have hPC : p.compute.PageCount = ceilIntDiv p.Total p.MaxResults := rfl
  have hPg : p.compute.Page = ceilIntDiv p.StartAt p.MaxResults := rfl
  have hPs : p.compute.Pages =
      (List.range (ceilIntDiv p.Total p.MaxResults).toNat).map Int.ofNat := rfl
  refine ⟨⟨rfl, rfl, rfl⟩, ?_, ?_, ⟨?_, ?_, ?_⟩, by decide⟩
  · rw [hPC]
    exact ceilIntDiv_bounds p.Total p.MaxResults hmax
  · rw [hPg]
    exact ceilIntDiv_bounds p.StartAt p.MaxResults hmax
  · rw [hPC]
    exact ceilIntDiv_nonneg p.Total p.MaxResults htotal hmax
  · rw [hPs, hPC]
    simp
  · intro i hi
    simp only [Pagination.compute] at hi ⊢
    simp only [List.length_map, List.length_range] at hi
    simp [hi]

/-- Witness for C1 at `total = 95`, `startAt = 20`, `maxResults = 25`. -/
theorem pagination_compute_correct_witness :
    (0 : Int) ≤ 95 ∧ (0 : Int) ≤ 20 ∧ (0 : Int) < 25 ∧
    Pagination.compute ⟨95, 20, 25, 0, 0, []⟩ = ⟨95, 20, 25, 1, 4, [0, 1, 2, 3]⟩ :=
  ⟨by decide, by decide, by decide,
    (pagination_compute_correct ⟨95, 20, 25, 0, 0, []⟩
      (by decide) (by decide) (by decide)).2.2.2.2⟩

/-- C2: when the issue's `Fields` block is present, `SaveIssue` clears
`Reporter` and `Assignee` to `nil` and `Created` to the empty string on the
caller's issue (leaving every other field as it was) before encoding, so the
outgoing JSON payload contains no `reporter`, `assignee` or `created` key. -/
theorem saveIssue_strips_server_managed_fields (issue : Issue) (f : IssueFields)
    (h : issue.Fields = some f) :
    ∃ p : Issue,
      Jira.saveIssuePrepare issue = some p ∧
      p.Id = issue.Id ∧ p.Key = issue.Key ∧ p.Self = issue.Self ∧ p.Expand = issue.Expand ∧
      p.Fields = some { f with Reporter := none, Assignee := none, Created := "" } ∧
      "reporter" ∉ p.jsonKeysDeep ∧ "assignee" ∉ p.jsonKeysDeep ∧
      "created" ∉ p.jsonKeysDeep := by
  refine ⟨{ issue with
      Fields := some { f with Reporter := none, Assignee := none, Created := "" } },
    by simp [Jira.saveIssuePrepare, h], rfl, rfl, rfl, rfl, rfl, ?_, ?_, ?_⟩ <;>
    simp [Issue.jsonKeysDeep, IssueFields.jsonKeys, mem_optKey]

/-- Witness for C2 on a fully populated issue. -/
theorem saveIssue_strips_server_managed_fields_witness :
    (⟨"1", "K-1", "s", "e",
      some ⟨some ⟨"", "", "", "", "Bug", false⟩, "sum", "desc",
        some ⟨"alice"⟩, some ⟨"bob"⟩,
        some ⟨"", "", "PRJ", "", []⟩, "2013-01-01", some [], 1, "h", 2⟩⟩ : Issue).Fields =
      some ⟨some ⟨"", "", "", "", "Bug", false⟩, "sum", "desc",
        some ⟨"alice"⟩, some ⟨"bob"⟩,
        some ⟨"", "", "PRJ", "", []⟩, "2013-01-01", some [], 1, "h", 2⟩ ∧
    ∃ p : Issue,
      Jira.saveIssuePrepare
        ⟨"1", "K-1", "s", "e",
          some ⟨some ⟨"", "", "", "", "Bug", false⟩, "sum", "desc",
            some ⟨"alice"⟩, some ⟨"bob"⟩,
            some ⟨"", "", "PRJ", "", []⟩, "2013-01-01", some [], 1, "h", 2⟩⟩ = some p ∧
      "reporter" ∉ p.jsonKeysDeep ∧ "assignee" ∉ p.jsonKeysDeep ∧
      "created" ∉ p.jsonKeysDeep := by
  refine ⟨rfl, ?_⟩
  obtain ⟨p, h1, -, -, -, -, -, h7, h8, h9⟩ :=
    saveIssue_strips_server_managed_fields
      ⟨"1", "K-1", "s", "e",
        some ⟨some ⟨"", "", "", "", "Bug", false⟩, "sum", "desc",
          some ⟨"alice"⟩, some ⟨"bob"⟩,
          some ⟨"", "", "PRJ", "", []⟩, "2013-01-01", some [], 1, "h", 2⟩⟩
      ⟨some ⟨"", "", "", "", "Bug", false⟩, "sum", "desc",
        some ⟨"alice"⟩, some ⟨"bob"⟩,
        some ⟨"", "", "PRJ", "", []⟩, "2013-01-01", some [], 1, "h", 2⟩ rfl
  exact ⟨p, h1, h7, h8, h9⟩

/-- C3: `AddVersion` is idempotent with respect to the version name: if the
list already holds an entry with the same `Name` the fields are unchanged;
if the list is `nil` it is initialised and the call yields exactly the
singleton; otherwise exactly the given version is appended at the end. -/
theorem addVersion_idempotent_by_name (f : IssueFields) (v : Version) :
    (∀ vs, f.Versions = some vs → (∃ w ∈ vs, w.Name = v.Name) →
      f.addVersion v = f) ∧
    (f.Versions = none → (f.addVersion v).Versions = some [v]) ∧
    (∀ vs, f.Versions = some vs → (∀ w ∈ vs, w.Name ≠ v.Name) →
      (f.addVersion v).Versions = some (vs ++ [v])) := by
  refine ⟨?_, ?_, ?_⟩
  · rintro vs hvs ⟨w, hw, hname⟩
    have hany : vs.any (fun x => x.Name == v.Name) = true :=
      List.any_eq_true.mpr ⟨w, hw, by simp [hname]⟩
    simp only [IssueFields.addVersion, hvs, Option.getD_some, hany, if_true]
    rw [← hvs]
  · intro h
    simp [IssueFields.addVersion, h]
  · intro vs hvs hall
    have hany : vs.any (fun x => x.Name == v.Name) = false := by
      simp only [List.any_eq_false]
      intro w hw
      simp [hall w hw]
    simp [IssueFields.addVersion, hvs, hany]

/-- Witness for C3: adding a version whose name `1.0` is already present
leaves the fields unchanged; adding to a `nil` list initialises it. -/
theorem addVersion_idempotent_by_name_witness :
    ((⟨none, "", "", none, none, none, "", some [⟨"", "", "1.0", "", "", 0⟩], 0, "", 0⟩ :
        IssueFields).addVersion ⟨"9", "", "1.0", "d", "p", 3⟩ =
      ⟨none, "", "", none, none, none, "", some [⟨"", "", "1.0", "", "", 0⟩], 0, "", 0⟩) ∧
    ((⟨none, "", "", none, none, none, "", none, 0, "", 0⟩ :
        IssueFields).addVersion ⟨"9", "", "2.0", "", "", 0⟩).Versions =
      some [⟨"9", "", "2.0", "", "", 0⟩] := by
  constructor
  · exact (addVersion_idempotent_by_name _ _).1 _ rfl
      ⟨⟨"", "", "1.0", "", "", 0⟩, by simp, rfl⟩
  · exact (addVersion_idempotent_by_name _ _).2.1 rfl

/-- C4: for the void operations `SaveIssue` and `AddVersionToIssue`, an
empty executor response body yields success (`nil` error), and a non-empty
body yields an error whose message contains the body's text. -/
theorem void_ops_error_iff_nonempty_body (contents : String) :
    (contents = "" →
      saveIssueRespond contents = none ∧ addVersionToIssueRespond contents = none) ∧
    (contents ≠ "" →
      saveIssueRespond contents = some ("error: " ++ contents) ∧
      addVersionToIssueRespond contents = some ("error: " ++ contents) ∧
      ∃ pre, "error: " ++ contents = pre ++ contents) := by
  constructor
  · rintro rfl
    exact ⟨rfl, rfl⟩
  · intro h
    have hlen : contents.length ≠ 0 := by
      intro h0
      exact h (String.ext (List.length_eq_zero.mp h0))
    refine ⟨?_, ?_, ⟨"error: ", rfl⟩⟩
    · simp [saveIssueRespond, Nat.pos_of_ne_zero hlen]
    · simp [addVersionToIssueRespond, hlen]

/-- Witness for C4 at body `"boom"` and at the empty body. -/
theorem void_ops_error_iff_nonempty_body_witness :
    ("" : String) = "" ∧ saveIssueRespond "" = none ∧
    ("boom" : String) ≠ "" ∧
    saveIssueRespond "boom" = some "error: boom" ∧
    addVersionToIssueRespond "boom" = some "error: boom" :=
  ⟨rfl, ((void_ops_error_iff_nonempty_body "").1 rfl).1, by decide,
    ((void_ops_error_iff_nonempty_body "boom").2 (by decide)).1,
    ((void_ops_error_iff_nonempty_body "boom").2 (by decide)).2.1⟩

/-- C5 (counterexample): `Jira.Issue` does not URL-escape the user-supplied
issue id.  For the id `"a b"` the escaped form `queryEscape "a b" = "a+b"`
does not occur anywhere in the constructed URL `"/issue/a b"` (base and API
paths empty), so the URL does not contain the URL-escaped form of the id. -/
theorem issue_url_not_escaped_counterexample :
    ¬ ((queryEscape "a b").toList <:+:
        (Jira.issueURL ⟨"", "", "", none⟩ "a b").toList) := by
  decide

/-- C5 (amended): the query-string values (JQL, user name) are URL-escaped
via `QueryEscape`, but the path-segment values (issue id, issue key, project
key) are concatenated into the URL verbatim, unescaped. -/
theorem url_escaping_per_operation (j : Jira)
    (jql user id issue_key productKey : String) (maxResults startAt : Int)
    (issue : Issue) (ref : IssueRef) :
    (∃ a b, Jira.searchURL j jql maxResults = a ++ queryEscape jql ++ b) ∧
    (∃ a b, Jira.issuesAssignedToURL j user maxResults startAt =
      a ++ queryEscape user ++ b) ∧
    (∃ a, Jira.userActivityURL j user = a ++ queryEscape ("user IS " ++ user)) ∧
    (∃ a, Jira.issueURL j id = a ++ id) ∧
    (∃ a b, Jira.addCommentURL j issue_key = a ++ issue_key ++ b) ∧
    (∃ a b, Jira.getAllVersionsURL j productKey = a ++ productKey ++ b) ∧
    (∃ a, Jira.saveIssueURL j issue = a ++ issue.Key) ∧
    (∃ a, Jira.addVersionToIssueURL j ref = a ++ ref.Key) := by
  refine ⟨⟨j.BaseUrl ++ j.ApiPath ++ "/search?jql=",
      "&maxResults=" ++ toString maxResults, ?_⟩,
    ⟨j.BaseUrl ++ j.ApiPath ++ "/search?jql=assignee=\"",
      "\"&startAt=" ++ toString startAt ++ "&maxResults=" ++ toString maxResults, ?_⟩,
    ⟨j.BaseUrl ++ j.ActivityPath ++ "?streams=", ?_⟩,
    ⟨j.BaseUrl ++ j.ApiPath ++ "/issue/", ?_⟩,
    ⟨j.BaseUrl ++ j.ApiPath ++ "/issue/", "/comment", ?_⟩,
    ⟨j.BaseUrl ++ j.ApiPath ++ "/project/", "/versions", ?_⟩,
    ⟨j.BaseUrl ++ j.ApiPath ++ "/issue/", ?_⟩,
    ⟨j.BaseUrl ++ j.ApiPath ++ "/issue/", ?_⟩⟩ <;>
  simp [Jira.searchURL, Jira.issuesAssignedToURL, Jira.userActivityURL,
    Jira.issueURL, Jira.addCommentURL, Jira.getAllVersionsURL,
    Jira.saveIssueURL, Jira.addVersionToIssueURL, String.append_assoc]

/-- C6 (counterexample): `Jira.Search` does not attach a computed
`Pagination` to its result (the decoded result passes through unchanged, so
the `Pagination` field stays `nil`), and its URL carries no `startAt`
parameter. -/
theorem search_no_pagination_counterexample :
    (Jira.searchAssemble ⟨"", 0, 50, 95, [], none⟩).Pagination ≠
      some (Pagination.compute ⟨95, 0, 50, 0, 0, []⟩) ∧
    ¬ ("startAt".toList <:+:
        (Jira.searchURL ⟨"", "", "", none⟩ "project = X" 50).toList) := by
  constructor
  · decide
  · decide

/-- C6 (amended): `IssuesAssignedTo` paginates via `startAt`/`maxResults` in
its URL and attaches to its result a `Pagination` computed from the decoded
result's `Total`, `StartAt` and `MaxResults`; `Search` sends only
`maxResults` (no `startAt`) and returns the decoded result unchanged, with
no `Pagination` attached. -/
theorem search_pagination_amended (decoded : SearchResult) (j : Jira)
    (user jql : String) (maxResults startAt : Int)
    (htotal : 0 ≤ decoded.Total) (hstart : 0 ≤ decoded.StartAt)
    (hmax : 0 < decoded.MaxResults) :
    (∃ pg, (Jira.issuesAssignedToAssemble decoded).Pagination = some pg ∧
      pg.Total = decoded.Total ∧ pg.StartAt = decoded.StartAt ∧
      pg.MaxResults = decoded.MaxResults ∧
      decoded.Total ≤ pg.PageCount * decoded.MaxResults ∧
      (pg.PageCount - 1) * decoded.MaxResults < decoded.Total ∧
      decoded.StartAt ≤ pg.Page * decoded.MaxResults ∧
      (pg.Page - 1) * decoded.MaxResults < decoded.StartAt) ∧
    (∃ a b, Jira.issuesAssignedToURL j user maxResults startAt =
      a ++ ("&startAt=" ++ toString startAt ++ "&maxResults=" ++ toString maxResults) ++ b) ∧
    (∃ a, Jira.searchURL j jql maxResults = a ++ ("&maxResults=" ++ toString maxResults)) ∧
    Jira.searchAssemble decoded = decoded ∧
    (Jira.searchAssemble decoded).Pagination = decoded.Pagination := by
  refine ⟨?_, ?_, ?_, rfl, rfl⟩
  · obtain ⟨-, hPC, hPg, -, -⟩ :=
      pagination_compute_correct
        ⟨decoded.Total, decoded.StartAt, decoded.MaxResults, 0, 0, []⟩
        htotal hstart hmax
    exact ⟨_, rfl, rfl, rfl, rfl, hPC.1, hPC.2, hPg.1, hPg.2⟩
  · refine ⟨j.BaseUrl ++ j.ApiPath ++ "/search?jql=assignee=\"" ++ queryEscape user ++ "\"",
      "", ?_⟩
    have key : ∀ X : String, ("\"&startAt=" : String) ++ X = "\"" ++ ("&startAt=" ++ X) := by
      intro X
      have hlit : ("\"" : String) ++ "&startAt=" = "\"&startAt=" := by decide
      rw [← String.append_assoc, hlit]
    simp only [Jira.issuesAssignedToURL, String.append_assoc, String.append_empty]
    rw [key]
  · exact ⟨j.BaseUrl ++ j.ApiPath ++ "/search?jql=" ++ queryEscape jql,
      by simp [Jira.searchURL, String.append_assoc]⟩

/-- Witness for C6 (amended) at a decoded result with `Total = 95`,
`StartAt = 20`, `MaxResults = 25`. -/
theorem search_pagination_amended_witness :
    (0 : Int) ≤ 95 ∧ (0 : Int) ≤ 20 ∧ (0 : Int) < 25 ∧
    ∃ pg, (Jira.issuesAssignedToAssemble ⟨"", 20, 25, 95, [], none⟩).Pagination = some pg ∧
      pg.Total = 95 ∧ pg.StartAt = 20 ∧ pg.MaxResults = 25 ∧
      (95 : Int) ≤ pg.PageCount * 25 ∧ (pg.PageCount - 1) * 25 < 95 ∧
      (20 : Int) ≤ pg.Page * 25 ∧ (pg.Page - 1) * 25 < 20 :=
  ⟨by decide, by decide, by decide,
    (search_pagination_amended ⟨"", 20, 25, 95, [], none⟩ ⟨"", "", "", none⟩
      "u" "jql" 25 20 (by decide) (by decide) (by decide)).1⟩

/-- C7 (counterexample): at `maxResults = 0` the source calculator does not
signal a division error: `Compute` has no error channel and returns a plain
`Pagination` value, while the spec-modelled checked calculator returns the
division error the claim describes, so the two disagree at
`(Total, StartAt, MaxResults) = (95, 20, 0)`. -/
theorem compute_no_division_error_counterexample :
    Pagination.computeChecked ⟨95, 20, 0, 0, 0, []⟩ =
      Except.error "division error: maxResults = 0" ∧
    Except.ok (Pagination.compute ⟨95, 20, 0, 0, 0, []⟩) ≠
      Pagination.computeChecked ⟨95, 20, 0, 0, 0, []⟩ := by
  refine ⟨rfl, ?_⟩
  intro h
  simp [Pagination.computeChecked] at h

/-- C7 (amended): the source `Compute` silently produces a result for every
input (it has no error channel); a division error at `maxResults = 0` is
signalled only by the spec-modelled checked calculator, which errors exactly
when `MaxResults = 0` and otherwise returns `Compute`'s result. -/
theorem computeChecked_signals_division_error (p : Pagination) :
    (p.MaxResults = 0 →
      p.computeChecked = Except.error "division error: maxResults = 0") ∧
    (p.MaxResults ≠ 0 → p.computeChecked = Except.ok p.compute) ∧
    (p.MaxResults = 0 → ∀ q : Pagination, Except.ok q ≠ p.computeChecked) := by
  refine ⟨fun h => by simp [Pagination.computeChecked, h],
    fun h => by simp [Pagination.computeChecked, h], fun h q hq => ?_⟩
  rw [Pagination.computeChecked, if_pos h] at hq
  exact Except.noConfusion hq

/-- Witness for C7 (amended) at `MaxResults = 0` and at `MaxResults = 25`. -/
theorem computeChecked_signals_division_error_witness :
    ((⟨95, 20, 0, 0, 0, []⟩ : Pagination).MaxResults = 0 ∧
      Pagination.computeChecked ⟨95, 20, 0, 0, 0, []⟩ =
        Except.error "division error: maxResults = 0") ∧
    ((⟨95, 20, 25, 0, 0, []⟩ : Pagination).MaxResults ≠ 0 ∧
      Pagination.computeChecked ⟨95, 20, 25, 0, 0, []⟩ =
        Except.ok (Pagination.compute ⟨95, 20, 25, 0, 0, []⟩)) :=
  ⟨⟨rfl, (computeChecked_signals_division_error ⟨95, 20, 0, 0, 0, []⟩).1 rfl⟩,
    ⟨by decide, (computeChecked_signals_division_error ⟨95, 20, 25, 0, 0, []⟩).2.1
      (by decide)⟩⟩

/-- C8: `SaveIssue` dereferences `issue.Fields` unconditionally, so an issue
whose `Fields` pointer is `nil` makes the mutation step a runtime nil-pointer
panic (modelled as `none`) instead of an error return; a non-`nil` `Fields`
pointer is a genuine precondition. -/
theorem saveIssue_nil_fields_unsafe (issue : Issue) (h : issue.Fields = none) :
    Jira.saveIssuePrepare issue = none := by
  simp [Jira.saveIssuePrepare, h]

/-- Witness for C8 at an issue with `Fields = none`. -/
theorem saveIssue_nil_fields_unsafe_witness :
    (⟨"1", "K-1", "", "", none⟩ : Issue).Fields = none ∧
    Jira.saveIssuePrepare ⟨"1", "K-1", "", "", none⟩ = none :=
  ⟨rfl, saveIssue_nil_fields_unsafe ⟨"1", "K-1", "", "", none⟩ rfl⟩

/-- C9: on transport failure the executor returns `nil` bytes (length `0`),
and on a length-`0` body both void operations return success (`nil` error),
exactly as they do on a genuinely empty successful response: at the public
interface a failed request is indistinguishable from an empty success. -/
theorem network_failure_reads_as_success :
    execRequestFailureContents.length = 0 ∧
    saveIssueRespond execRequestFailureContents = none ∧
    addVersionToIssueRespond execRequestFailureContents = none ∧
    saveIssueRespond execRequestFailureContents = saveIssueRespond "" ∧
    addVersionToIssueRespond execRequestFailureContents =
      addVersionToIssueRespond "" := by
  refine ⟨rfl, rfl, rfl, rfl, rfl⟩

/-- One `AddVersion` call always leaves a non-`nil` version list. -/
lemma addVersion_isSome (f : IssueFields) (w : Version) :
    ((f.addVersion w).Versions).isSome = true := by
  simp only [IssueFields.addVersion]
  split <;> simp

/-- One `AddVersion` call extends the version list: the previous entries stay
a prefix of the new list. -/
lemma addVersion_extends (f : IssueFields) (w : Version) :
    (f.Versions.getD []) <+: ((f.addVersion w).Versions.getD []) := by
  simp only [IssueFields.addVersion]
  split <;> simp

/-- One `AddVersion` call preserves pairwise-distinct version names. -/
lemma addVersion_nodup (f : IssueFields) (w : Version)
    (h : f.versionNames.Nodup) : (f.addVersion w).versionNames.Nodup := by
  simp only [IssueFields.versionNames] at h ⊢
  simp only [IssueFields.addVersion]
  split
  · simpa using h
  · rename_i hany
    have hnotin : ∀ v ∈ f.Versions.getD [], v.Name ≠ w.Name := by
      intro v hv heq
      exact hany (List.any_eq_true.mpr ⟨v, hv, by simp [heq]⟩)
    simp only [Option.getD_some, List.map_append, List.map_cons, List.map_nil]
    rw [List.nodup_append]
    refine ⟨h, List.nodup_singleton _, ?_⟩
    intro x hx hx2
    simp only [List.mem_singleton] at hx2
    obtain ⟨v, hv, rfl⟩ := List.mem_map.mp hx
    exact hnotin v hv (hx2 ▸ rfl)

/-- Any sequence of `AddVersion` calls preserves pairwise-distinct version
names, keeps the previously present entries as a prefix (their relative
order intact), and leaves the list non-`nil` as soon as it was non-`nil` or
at least one call was made. -/
lemma foldl_addVersion_invariant (ws : List Version) (f : IssueFields)
    (h : f.versionNames.Nodup) :
    ((ws.foldl IssueFields.addVersion f).versionNames.Nodup) ∧
    ((f.Versions.getD []) <+: ((ws.foldl IssueFields.addVersion f).Versions.getD [])) ∧
    (f.Versions.isSome = true →
      ((ws.foldl IssueFields.addVersion f).Versions).isSome = true) ∧
    (ws ≠ [] → ((ws.foldl IssueFields.addVersion f).Versions).isSome = true) := by
  induction ws generalizing f with
  | nil =>
      exact ⟨h, List.prefix_refl _, fun hs => hs, fun hne => absurd rfl hne⟩
  | cons w ws ih =>
      obtain ⟨ha, hb, hc, _⟩ := ih (f.addVersion w) (addVersion_nodup f w h)
      simp only [List.foldl_cons]
      exact ⟨ha, (addVersion_extends f w).trans hb,
        fun _ => hc (addVersion_isSome f w),
        fun _ => hc (addVersion_isSome f w)⟩

/-- C10: pairwise-distinct version names are an invariant of `AddVersion`:
starting from `NewIssue` (whose fields carry an empty, non-`nil` version
list) or from any fields with pairwise-distinct version names, any sequence
of `AddVersion` calls keeps the names pairwise distinct, preserves the
relative order of the previously present entries (they remain a prefix), and
the list is non-`nil` whenever it already was or at least one version was
added. -/
theorem addVersion_distinct_names_invariant (f : IssueFields) (ws : List Version)
    (h : f.versionNames.Nodup) :
    ((ws.foldl IssueFields.addVersion f).versionNames.Nodup) ∧
    ((f.Versions.getD []) <+: ((ws.foldl IssueFields.addVersion f).Versions.getD [])) ∧
    (f.Versions.isSome = true →
      ((ws.foldl IssueFields.addVersion f).Versions).isSome = true) ∧
    (ws ≠ [] → ((ws.foldl IssueFields.addVersion f).Versions).isSome = true) ∧
    (∀ project issue_type, ∃ nf,
      (NewIssue project issue_type).Fields = some nf ∧
      nf.Versions = some [] ∧ nf.versionNames.Nodup) := by
  obtain ⟨h1, h2, h3, h4⟩ := foldl_addVersion_invariant ws f h
  exact ⟨h1, h2, h3, h4, fun project issue_type =>
    ⟨_, rfl, rfl, by simp [IssueFields.versionNames, NewIssue]⟩⟩

/-- Witness for C10: the fields of `NewIssue "P" "Bug"` run through the
sequence `[2.0, 1.0, 2.0]`; names stay pairwise distinct. -/
theorem addVersion_distinct_names_invariant_witness :
    ((⟨some ⟨"", "", "", "", "Bug", false⟩, "", "", none, none,
        some ⟨"", "", "P", "", []⟩, "", some [], 0, "", 0⟩ :
        IssueFields).versionNames.Nodup) ∧
    (([⟨"", "", "2.0", "", "", 0⟩, ⟨"", "", "1.0", "", "", 0⟩,
        ⟨"7", "", "2.0", "x", "", 1⟩] : List Version).foldl IssueFields.addVersion
      ⟨some ⟨"", "", "", "", "Bug", false⟩, "", "", none, none,
        some ⟨"", "", "P", "", []⟩, "", some [], 0, "", 0⟩).versionNames.Nodup ∧
    (([⟨"", "", "2.0", "", "", 0⟩, ⟨"", "", "1.0", "", "", 0⟩,
        ⟨"7", "", "2.0", "x", "", 1⟩] : List Version).foldl IssueFields.addVersion
      ⟨some ⟨"", "", "", "", "Bug", false⟩, "", "", none, none,
        some ⟨"", "", "P", "", []⟩, "", some [], 0, "", 0⟩).Versions.isSome = true := by
  refine ⟨by decide, ?_, ?_⟩
  · exact (addVersion_distinct_names_invariant _ _ (by decide)).1
  · exact (addVersion_distinct_names_invariant _ _ (by decide)).2.2.2.1 (by decide)

end Gojira
